import Mathlib

/-!
Verification of the frame-orchestration core of the Kataglyphis Vulkan
renderer (`Src/GraphicsEngineVulkan`).

The repository headers give the data model directly:
  * `renderer/GUIRendererSharedVars.hpp` — the GUI/renderer shared flag struct;
  * `common/Utilities.hpp` — the `ASSERT_VULKAN` error-checking macro;
  * `memory/Allocator.hpp` — the public interface of class `Allocator`;
  * `renderer/VulkanRenderer.hpp` — the declaration of `VulkanRenderer`
    (`drawFrame`, `current_frame`, the per-slot semaphore/fence vectors,
    the pass-stage members `rasterizer`, `raytracingStage`, `pathTracing`,
    `postStage`, `shaderHotReload`, `checkChangedFramebufferSize`);
  * `renderer/accelerationStructures/TopLevelAccelerationStructure.hpp`.

Only declarations of `drawFrame`, `record_commands`, `shaderHotReload` and
the acceleration-structure manager appear in the sources; their bodies are
not part of this excerpt.  Those parts are modelled from the specification
(doc comments starting `Modelled from the spec:` mark every such
definition); everything else is translated from the headers.
-/

namespace KataglyphisRenderer

/-! ## Data model from the headers -/

/-- `GUIRendererSharedVars` from `renderer/GUIRendererSharedVars.hpp`:
the shared flag block between GUI and renderer, with the default member
initializers `raytracing = false`, `pathTracing = false`,
`shader_hot_reload_triggered = false`. -/
structure GUIRendererSharedVars where
  raytracing : Bool := false
  pathTracing : Bool := false
  shader_hot_reload_triggered : Bool := false
deriving DecidableEq, Repr

/-- `VK_SUCCESS` of the Vulkan API, the result value `0`. -/
def VK_SUCCESS : Int := 0

/-- A program state threaded through `ASSERT_VULKAN`: the spdlog log plus
everything else (`rest`), kept abstract because the macro only touches the
log. -/
structure ProgramState (σ : Type) where
  rest : σ
  log : List String
deriving DecidableEq

/-- The `ASSERT_VULKAN(val, error_string)` macro from `common/Utilities.hpp`:
`if (val != VK_SUCCESS) { spdlog::error(error_string); }`.
It expands to a statement, so the second component models the raised
exception / error value handed to the caller: there is none, on either
branch. -/
def ASSERT_VULKAN {σ : Type} (val : Int) (error_string : String)
    (st : ProgramState σ) : ProgramState σ × Option String :=
  (if val ≠ VK_SUCCESS then { st with log := st.log ++ [error_string] } else st,
   none)

/-- The public member functions of class `Allocator` in
`memory/Allocator.hpp`, in declaration order: the default constructor,
the `(device, physicalDevice, instance)` constructor, `cleanUp`, and the
destructor.  The only data member is the wrapped `VmaAllocator`. -/
def allocatorPublicMembers : List String :=
  ["Allocator()",
   "Allocator(device, physicalDevice, instance)",
   "cleanUp()",
   "~Allocator()"]

/-! ## Pass pipeline (modelled from the spec) -/

/-- The render passes of the command-recording pipeline, one constructor per
stage member of `VulkanRenderer` (`rasterizer`, `raytracingStage`,
`pathTracing`, `postStage`) plus the begin/end bookends of the recorded
command buffer. -/
inductive Pass where
  | beginP : Pass
  | rasterizerP : Pass
  | rayTracingP : Pass
  | pathTracingP : Pass
  | postProcessingP : Pass
  | endP : Pass
deriving DecidableEq, Repr

/-- The full pass order of the recording state machine:
`Begin → Rasterizer → RayTracing → PathTracing → PostProcessing → End`. -/
def canonicalPassOrder : List Pass :=
  [Pass.beginP, Pass.rasterizerP, Pass.rayTracingP, Pass.pathTracingP,
   Pass.postProcessingP, Pass.endP]

/-- Whether a pass is recorded under the given flag assignment: the
rasterizer, post-processing and the bookends are unconditional, the ray
tracing and path tracing passes are gated by their
`GUIRendererSharedVars` flags. -/
def passEnabled (vars : GUIRendererSharedVars) : Pass → Bool
  | Pass.rayTracingP => vars.raytracing
  | Pass.pathTracingP => vars.pathTracing
  | _ => true

/-- Modelled from the spec: the body of
`VulkanRenderer::record_commands` is not in the excerpt; §4.6 fixes the
recorded sequence as `Begin → Rasterizer → RayTracing(optional) →
PathTracing(optional) → PostProcessing → End`, flags gating the optional
passes only. -/
def recordedPasses (vars : GUIRendererSharedVars) : List Pass :=
  [Pass.beginP, Pass.rasterizerP]
    ++ (if vars.raytracing then [Pass.rayTracingP] else [])
    ++ (if vars.pathTracing then [Pass.pathTracingP] else [])
    ++ [Pass.postProcessingP, Pass.endP]

/-! ## Frame orchestration (modelled from the spec) -/

/-- Result of acquiring the next presentable image
(`vkAcquireNextImageKHR`): success with an image index, the surface-stale
condition (`VK_ERROR_OUT_OF_DATE_KHR`), or device loss. -/
inductive AcquireResult where
  | success : Nat → AcquireResult
  | outOfDateKHR : AcquireResult
  | deviceLostErr : AcquireResult
deriving DecidableEq, Repr

/-- The fatal error taxonomy surfaced past the frame-orchestration
boundary. -/
inductive EngineError where
  | deviceLost : EngineError
deriving DecidableEq, Repr

/-- Observable per-frame actions of the orchestration engine.  Slot-indexed
events name the frame slot whose resource they touch; `submit` carries its
synchronization configuration `(slot, waitSem, signalSem, signalFence)`
and `acquireImage` / `present` carry the semaphore they signal / wait on. -/
inductive Event where
  | checkHotReloadFlag : Event
  | rebuildPipelines : Bool → Event
  | waitFence : Nat → Event
  | acquireImage : Nat → Nat → Event
  | resetFence : Nat → Event
  | updateUniforms : Nat → Event
  | updateDescriptors : Nat → Event
  | recordPass : Nat → Pass → Event
  | submit : Nat → Nat → Nat → Nat → Event
  | present : Nat → Nat → Event
  | advanceFrame : Event
  | signalResize : Event
deriving DecidableEq, Repr

/-- The renderer state the per-frame protocol mutates: the `current_frame`
counter of `VulkanRenderer` and the shared flag block obtained from the
GUI. -/
structure FrameState where
  currentFrame : Nat
  sharedVars : GUIRendererSharedVars
deriving DecidableEq, Repr

/-- Modelled from the spec: the body of `VulkanRenderer::shaderHotReload`
is not in the excerpt; §4.6 specifies a flag check at frame start, a
rebuild of the affected pipeline objects when the flag is set, and a
clear of the flag only after a successful rebuild. -/
def shaderHotReload (vars : GUIRendererSharedVars) (rebuildOk : Bool) :
    GUIRendererSharedVars × List Event :=
  if vars.shader_hot_reload_triggered then
    if rebuildOk then
      ({ vars with shader_hot_reload_triggered := false },
       [Event.checkHotReloadFlag, Event.rebuildPipelines true])
    else
      (vars, [Event.checkHotReloadFlag, Event.rebuildPipelines false])
  else
    (vars, [Event.checkHotReloadFlag])

/-- Modelled from the spec: the body of `VulkanRenderer::drawFrame` is not
in the excerpt; §4.7 fixes the per-frame algorithm for slot
`f = current_frame mod N`: wait on slot `f`'s fence, acquire the next
image signalling `image_available[f]` (on a stale surface: signal a
resize event and skip the frame), reset slot `f`'s fence, update and
record into slot `f`'s resources, submit waiting on `image_available[f]`
and signalling `render_finished[f]` and `in_flight_fences[f]`, present
waiting on `render_finished[f]`, advance `current_frame`.  The hot-reload
flag check of §4.6 happens at frame start. -/
def drawFrame (N : Nat) (st : FrameState) (acq : AcquireResult)
    (rebuildOk : Bool) : FrameState × List Event × Option EngineError :=
  let f := st.currentFrame % N
  let hr := shaderHotReload st.sharedVars rebuildOk
  let preEvs := hr.2 ++ [Event.waitFence f]
  match acq with
  | AcquireResult.success _imageIndex =>
      ({ currentFrame := st.currentFrame + 1, sharedVars := hr.1 },
       preEvs
         ++ [Event.acquireImage f f, Event.resetFence f,
             Event.updateUniforms f, Event.updateDescriptors f]
         ++ (recordedPasses hr.1).map (Event.recordPass f)
         ++ [Event.submit f f f f, Event.present f f, Event.advanceFrame],
       none)
  | AcquireResult.outOfDateKHR =>
      ({ st with sharedVars := hr.1 },
       preEvs ++ [Event.acquireImage f f, Event.signalResize],
       none)
  | AcquireResult.deviceLostErr =>
      ({ st with sharedVars := hr.1 },
       preEvs ++ [Event.acquireImage f f],
       some EngineError.deviceLost)

/-- A run of consecutive `drawFrame` calls, one list entry per frame giving
that frame's acquisition result and pipeline-rebuild outcome; returns the
final state and the concatenated event trace. -/
def runFrames (N : Nat) (st : FrameState) :
    List (AcquireResult × Bool) → FrameState × List Event
  | [] => (st, [])
  | (acq, rebuildOk) :: rest =>
      let r := drawFrame N st acq rebuildOk
      let rr := runFrames N r.1 rest
      (rr.1, r.2.1 ++ rr.2)

/-! ## CPU-side fence discipline (for the multi-frame invariant) -/

/-- The frame slot whose per-slot resources (command buffer, uniform
buffer, descriptor set) an event writes on the CPU, if any. -/
def writeSlot? : Event → Option Nat
  | Event.updateUniforms k => some k
  | Event.updateDescriptors k => some k
  | Event.recordPass k _ => some k
  | _ => none

/-- Tracks which slots are in flight on the GPU from the CPU's point of
view: a slot enters flight at its `submit` and is only known retired again
once the CPU has waited on that slot's fence. -/
def inFlightAfter (status : Nat → Bool) : Event → Nat → Bool
  | Event.submit k _ _ _ => fun s => if s = k then true else status s
  | Event.waitFence k => fun s => if s = k then false else status s
  | _ => status

/-- Checks a trace against the fence discipline: no CPU write to a slot's
resources while that slot is in flight (submitted, fence not yet waited
on). -/
def writesRespectFences (status : Nat → Bool) : List Event → Bool
  | [] => true
  | e :: rest =>
      (match writeSlot? e with
       | some k => !(status k)
       | none => true)
        && writesRespectFences (inFlightAfter status e) rest

/-- The number of `waitFence s` events a run of `n` frames starting at
frame counter `c` performs, slot selection being `counter % N` and the
counter advancing by one per frame. -/
def expectedWaits (c N s : Nat) : Nat → Nat
  | 0 => 0
  | n + 1 => (if c % N = s then 1 else 0) + expectedWaits (c + 1) N s n

/-! ## Acceleration structures -/

/-- A scene object as consumed by the acceleration-structure manager: a
bottom-level structure handle, its transform, and whether the object is
currently valid. -/
structure SceneObject where
  blasHandle : Nat
  transform : Int
  valid : Bool
deriving DecidableEq, Repr

/-- `TopLevelAccelerationStructure` from
`renderer/accelerationStructures/TopLevelAccelerationStructure.hpp`
(a `VkAccelerationStructureKHR` with its backing buffer), extended per
spec §4.4 with the instance list the build compacts into the instance
buffer, and whether the handle is a valid structure. -/
structure TopLevelAccelerationStructure where
  instances : List (Nat × Int)
  isValidHandle : Bool
deriving DecidableEq, Repr

/-- Modelled from the spec: the acceleration-structure manager's build of
the top-level structure is not in the excerpt; §4.4 specifies compacting
the current set of valid bottom-level handles and their transforms into
the instance buffer. -/
def buildTopLevelAS (objs : List SceneObject) : TopLevelAccelerationStructure :=
  { instances :=
      (objs.filter (fun o => o.valid)).map (fun o => (o.blasHandle, o.transform)),
    isValidHandle := true }

/-- Full rebuild versus transform-only refit of the top-level structure. -/
inductive TLASUpdateMode where
  | fullRebuild : TLASUpdateMode
  | refit : TLASUpdateMode
deriving DecidableEq, Repr

/-- Modelled from the spec: the rebuild/refit policy of the
acceleration-structure manager is not in the excerpt; §4.4 makes full
rebuild the default and reserves refit for the case where only transforms
changed and the structure count is unchanged. -/
def chooseTLASUpdateMode (countChanged topologyChanged transformsChanged : Bool) :
    TLASUpdateMode :=
  if transformsChanged && !countChanged && !topologyChanged then
    TLASUpdateMode.refit
  else
    TLASUpdateMode.fullRebuild

/-- The shared flag block with the hot-reload trigger forced to `b` (GUI
writes the trigger; the other flags are untouched). -/
def withTrigger (vars : GUIRendererSharedVars) (b : Bool) : GUIRendererSharedVars :=
  { vars with shader_hot_reload_triggered := b }

/-! ## Helper lemmas -/

/-- The hot-reload step emits only the flag check and possibly one rebuild
event. -/
theorem shaderHotReload_events (vars : GUIRendererSharedVars) (rebuildOk : Bool) :
    ∀ e ∈ (shaderHotReload vars rebuildOk).2,
      e = Event.checkHotReloadFlag ∨ ∃ b, e = Event.rebuildPipelines b := by
  rcases vars with ⟨rt, pt, sh⟩
  cases sh <;> cases rebuildOk <;> simp [shaderHotReload]

/-- Events other than the flag check and a rebuild do not occur in the
hot-reload step. -/
theorem shaderHotReload_count (vars : GUIRendererSharedVars) (rebuildOk : Bool)
    (e : Event) (h1 : e ≠ Event.checkHotReloadFlag)
    (h2 : ∀ b, e ≠ Event.rebuildPipelines b) :
    ((shaderHotReload vars rebuildOk).2.count e) = 0 := by
  rw [List.count_eq_zero]
  intro hmem
  rcases shaderHotReload_events vars rebuildOk e hmem with h | ⟨b, h⟩
  exacts [h1 h, h2 b h]

/-- Non-recording events do not occur among the mapped recording events. -/
theorem recordPass_map_count (L : List Pass) (f : Nat) (e : Event)
    (h : ∀ k p, e ≠ Event.recordPass k p) :
    ((L.map (Event.recordPass f)).count e) = 0 := by
  rw [List.count_eq_zero]
  intro hmem
  rcases List.mem_map.mp hmem with ⟨p, _, hp⟩
  exact h f p hp.symm

/-- Right-associated shape of the trace of a normally completing frame. -/
theorem drawFrame_success_trace (N : Nat) (st : FrameState) (imageIndex : Nat)
    (rebuildOk : Bool) :
    (drawFrame N st (AcquireResult.success imageIndex) rebuildOk).2.1
      = (shaderHotReload st.sharedVars rebuildOk).2
          ++ (Event.waitFence (st.currentFrame % N)
            :: Event.acquireImage (st.currentFrame % N) (st.currentFrame % N)
            :: Event.resetFence (st.currentFrame % N)
            :: Event.updateUniforms (st.currentFrame % N)
            :: Event.updateDescriptors (st.currentFrame % N)
            :: ((recordedPasses (shaderHotReload st.sharedVars rebuildOk).1).map
                  (Event.recordPass (st.currentFrame % N))
              ++ [Event.submit (st.currentFrame % N) (st.currentFrame % N)
                    (st.currentFrame % N) (st.currentFrame % N),
                  Event.present (st.currentFrame % N) (st.currentFrame % N),
                  Event.advanceFrame])) := by
  simp [drawFrame]

/-- State after a normally completing frame: the counter advances by one
and the shared flags are those left by the hot-reload step. -/
theorem drawFrame_success_state (N : Nat) (st : FrameState) (imageIndex : Nat)
    (rebuildOk : Bool) :
    (drawFrame N st (AcquireResult.success imageIndex) rebuildOk).1
      = { currentFrame := st.currentFrame + 1,
          sharedVars := (shaderHotReload st.sharedVars rebuildOk).1 } := rfl

/-- The fence-discipline checker distributes over trace concatenation. -/
theorem writesRespectFences_append (xs ys : List Event) (status : Nat → Bool) :
    writesRespectFences status (xs ++ ys)
      = (writesRespectFences status xs
          && writesRespectFences (xs.foldl inFlightAfter status) ys) := by
  induction xs generalizing status with
  | nil => simp [writesRespectFences]
  | cons e rest ih =>
      simp [writesRespectFences, List.foldl_cons, ih, Bool.and_assoc]

/-- The hot-reload step never changes which slots are in flight. -/
theorem shaderHotReload_foldl (vars : GUIRendererSharedVars) (rebuildOk : Bool)
    (status : Nat → Bool) :
    (shaderHotReload vars rebuildOk).2.foldl inFlightAfter status = status := by
  rcases vars with ⟨rt, pt, sh⟩
  cases sh <;> cases rebuildOk <;> simp [shaderHotReload, inFlightAfter]

/-- The hot-reload step performs no CPU write to any frame slot. -/
theorem shaderHotReload_wrf (vars : GUIRendererSharedVars) (rebuildOk : Bool)
    (status : Nat → Bool) :
    writesRespectFences status (shaderHotReload vars rebuildOk).2 = true := by
  rcases vars with ⟨rt, pt, sh⟩
  cases sh <;> cases rebuildOk <;>
    simp [shaderHotReload, writesRespectFences, writeSlot?, inFlightAfter]

/-- Recording passes never changes which slots are in flight. -/
theorem recordPass_map_foldl (L : List Pass) (f : Nat) (status : Nat → Bool) :
    (L.map (Event.recordPass f)).foldl inFlightAfter status = status := by
  induction L generalizing status with
  | nil => rfl
  | cons p rest ih => simp [List.foldl_cons, inFlightAfter, ih]

/-- Recording into slot `f` respects the fence discipline whenever slot `f`
is not in flight. -/
theorem recordPass_map_wrf (L : List Pass) (f : Nat) (status : Nat → Bool)
    (h : status f = false) :
    writesRespectFences status (L.map (Event.recordPass f)) = true := by
  induction L with
  | nil => rfl
  | cons p rest ih => simp [writesRespectFences, writeSlot?, inFlightAfter, h, ih]

/-- A single frame respects the fence discipline from any starting
in-flight assignment: the frame waits on slot `f`'s fence before its first
write to slot `f`, writes only to slot `f`, and submits slot `f` only after
all of its writes. -/
theorem drawFrame_wrf (N : Nat) (st : FrameState) (acq : AcquireResult)
    (rebuildOk : Bool) (status : Nat → Bool) :
    writesRespectFences status (drawFrame N st acq rebuildOk).2.1 = true := by
  cases acq with
  | success i =>
      rw [drawFrame_success_trace, writesRespectFences_append,
        shaderHotReload_wrf, shaderHotReload_foldl]
      simp [writesRespectFences, writeSlot?, inFlightAfter,
        writesRespectFences_append, recordPass_map_foldl, recordPass_map_wrf]
  | outOfDateKHR =>
      simp [drawFrame, writesRespectFences_append, shaderHotReload_wrf,
        shaderHotReload_foldl, writesRespectFences, writeSlot?, inFlightAfter]
  | deviceLostErr =>
      simp [drawFrame, writesRespectFences_append, shaderHotReload_wrf,
        shaderHotReload_foldl, writesRespectFences, writeSlot?, inFlightAfter]

/-! ## Claim theorems -/

/-- C2: across any run of `drawFrame` calls (any frames-in-flight count,
any starting state, any per-frame acquisition results and rebuild
outcomes), the CPU never writes to a frame slot's resources (command
buffer recording, uniform-buffer update, descriptor-set update) while that
slot is in flight, i.e. between the slot's submission and the CPU's
subsequent wait on that slot's in-flight fence; every reuse of a slot's
resources is preceded by the wait on its fence.  Stated via the executable
checker `writesRespectFences`, which scans the trace and rejects any write
to a slot that has been submitted and not yet fence-waited, starting from
an arbitrary in-flight assignment. -/
theorem C2_cpu_waits_on_fence_before_slot_reuse (N : Nat) (status : Nat → Bool)
    (st : FrameState) (inputs : List (AcquireResult × Bool)) :
    writesRespectFences status (runFrames N st inputs).2 = true := by
  induction inputs generalizing status st with
  | nil => rfl
  | cons fr rest ih =>
      rcases fr with ⟨acq, rOk⟩
      simp [runFrames, writesRespectFences_append, drawFrame_wrf, ih]

/-- C4: when image acquisition reports the surface-stale condition
(`VK_ERROR_OUT_OF_DATE_KHR`), `drawFrame` signals a resize event, skips
the frame (no submission, no frame advance) and absorbs the condition at
the frame-orchestration boundary: the returned error is `none`, never a
fatal error. -/
theorem C4_stale_surface_resizes_and_skips (N : Nat) (st : FrameState)
    (rebuildOk : Bool) :
    (drawFrame N st AcquireResult.outOfDateKHR rebuildOk).2.2 = none
      ∧ Event.signalResize ∈ (drawFrame N st AcquireResult.outOfDateKHR rebuildOk).2.1
      ∧ (∀ a b c d : Nat,
          Event.submit a b c d ∉ (drawFrame N st AcquireResult.outOfDateKHR rebuildOk).2.1)
      ∧ (drawFrame N st AcquireResult.outOfDateKHR rebuildOk).1.currentFrame
          = st.currentFrame := by
  rcases st with ⟨c, rt, pt, sh⟩
  cases sh <;> cases rebuildOk <;>
    simp [drawFrame, shaderHotReload]

/-- C6: the top-level acceleration-structure build compacts exactly the
currently-valid scene objects, so its instance count equals the number of
valid objects; building from an empty scene yields an empty but valid
structure; and the update policy chooses refit exactly when only
transforms changed with the structure count unchanged, a count or topology
change always forcing a full rebuild. -/
theorem C6_tlas_instance_count_and_rebuild_policy :
    (∀ objs : List SceneObject,
        (buildTopLevelAS objs).instances.length
            = (objs.filter (fun o => o.valid)).length
          ∧ (buildTopLevelAS objs).isValidHandle = true)
      ∧ ((buildTopLevelAS []).instances = []
          ∧ (buildTopLevelAS []).isValidHandle = true)
      ∧ (∀ countChanged topologyChanged transformsChanged : Bool,
          (chooseTLASUpdateMode countChanged topologyChanged transformsChanged
              = TLASUpdateMode.refit
            ↔ (transformsChanged = true ∧ countChanged = false
                ∧ topologyChanged = false)))
      ∧ (∀ topologyChanged transformsChanged : Bool,
          chooseTLASUpdateMode true topologyChanged transformsChanged
            = TLASUpdateMode.fullRebuild)
      ∧ (∀ countChanged transformsChanged : Bool,
          chooseTLASUpdateMode countChanged true transformsChanged
            = TLASUpdateMode.fullRebuild) := by
  refine ⟨fun objs => ⟨?_, rfl⟩, ⟨rfl, rfl⟩, ?_, ?_, ?_⟩
  · simp [buildTopLevelAS]
  · intro a b c; cases a <;> cases b <;> cases c <;> simp [chooseTLASUpdateMode]
  · intro b c; cases b <;> cases c <;> simp [chooseTLASUpdateMode]
  · intro a c; cases a <;> cases c <;> simp [chooseTLASUpdateMode]

/-- C7 counterexample: the public interface of class `Allocator`
(`memory/Allocator.hpp`) exposes no `allocate` and no `free` operation,
contradicting the claimed `allocate(sizeClass, usageFlags)` /
`free(handle)` surface. -/
theorem C7_counterexample_no_allocate_or_free :
    ("allocate" ∉ allocatorPublicMembers) ∧ ("free" ∉ allocatorPublicMembers) := by
  constructor <;> decide

/-- C7 (amended): the `Allocator` class wraps a `VmaAllocator` and exposes
exactly a default constructor, a `(device, physicalDevice, instance)`
constructor, `cleanUp()` and a destructor — four members, none of them an
`allocate` or `free` operation, so no `OutOfDeviceMemory` retry policy is
implemented at this interface. -/
theorem C7_allocator_interface_construction_and_cleanup_only :
    allocatorPublicMembers.length = 4
      ∧ "Allocator()" ∈ allocatorPublicMembers
      ∧ "Allocator(device, physicalDevice, instance)" ∈ allocatorPublicMembers
      ∧ "cleanUp()" ∈ allocatorPublicMembers
      ∧ "~Allocator()" ∈ allocatorPublicMembers
      ∧ "allocate" ∉ allocatorPublicMembers
      ∧ "free" ∉ allocatorPublicMembers := by
  refine ⟨rfl, ?_, ?_, ?_, ?_, ?_, ?_⟩ <;> decide

/-- C9: for every result value checked through `ASSERT_VULKAN`, a
non-`VK_SUCCESS` value only appends the error string to the log and
execution continues: no exception is raised, no error value reaches the
caller, and the rest of the program state is exactly that of the success
path. -/
theorem C9_ASSERT_VULKAN_logs_only_and_continues {σ : Type} (val : Int)
    (error_string : String) (st : ProgramState σ) :
    (ASSERT_VULKAN val error_string st).2 = none
      ∧ ((ASSERT_VULKAN val error_string st).1).rest
          = ((ASSERT_VULKAN VK_SUCCESS error_string st).1).rest
      ∧ ((ASSERT_VULKAN val error_string st).1).log
          = (if val = VK_SUCCESS then st.log else st.log ++ [error_string]) := by
  unfold ASSERT_VULKAN VK_SUCCESS
  by_cases h : val = (0 : Int) <;> simp [h]

/-- C10: a freshly constructed `GUIRendererSharedVars` has
`raytracing = false`, `pathTracing = false` and
`shader_hot_reload_triggered = false`; consequently the first frame
records neither the ray-tracing nor the path-tracing pass and performs no
pipeline rebuild, whatever the frame counter, frames-in-flight count,
acquisition result or rebuild-outcome parameter. -/
theorem C10_default_shared_vars_disable_optional_work :
    (({} : GUIRendererSharedVars).raytracing = false
        ∧ ({} : GUIRendererSharedVars).pathTracing = false
        ∧ ({} : GUIRendererSharedVars).shader_hot_reload_triggered = false)
      ∧ Pass.rayTracingP ∉ recordedPasses {}
      ∧ Pass.pathTracingP ∉ recordedPasses {}
      ∧ (∀ (N c : Nat) (acq : AcquireResult) (rebuildOk b : Bool),
          Event.rebuildPipelines b
            ∉ (drawFrame N { currentFrame := c, sharedVars := {} } acq rebuildOk).2.1) := by
  refine ⟨⟨rfl, rfl, rfl⟩, by decide, by decide, ?_⟩
  intro N c acq rebuildOk b
  cases acq <;> simp [drawFrame, shaderHotReload, recordedPasses]

/-- C3: under every flag assignment the recorded pass list is a
subsequence of the fixed order Begin, Rasterizer, RayTracing, PathTracing,
PostProcessing, End (so an earlier pass is never recorded after a later
one); the unconditional passes are always present, the ray-tracing and
path-tracing passes exactly when their flags are set; and in the recorded
frame the passes appear in the single command buffer in that order with
the submit following all of them. -/
theorem C3_flags_gate_but_never_reorder_passes (vars : GUIRendererSharedVars)
    (N : Nat) (st : FrameState) (imageIndex : Nat) (rebuildOk : Bool) :
    List.Sublist (recordedPasses vars) canonicalPassOrder
      ∧ Pass.beginP ∈ recordedPasses vars
      ∧ Pass.rasterizerP ∈ recordedPasses vars
      ∧ Pass.postProcessingP ∈ recordedPasses vars
      ∧ Pass.endP ∈ recordedPasses vars
      ∧ (Pass.rayTracingP ∈ recordedPasses vars ↔ vars.raytracing = true)
      ∧ (Pass.pathTracingP ∈ recordedPasses vars ↔ vars.pathTracing = true)
      ∧ List.Sublist
          (((recordedPasses (shaderHotReload st.sharedVars rebuildOk).1).map
              (Event.recordPass (st.currentFrame % N)))
            ++ [Event.submit (st.currentFrame % N) (st.currentFrame % N)
                  (st.currentFrame % N) (st.currentFrame % N)])
          ((drawFrame N st (AcquireResult.success imageIndex) rebuildOk).2.1) := by
  refine ⟨?_, ?_, ?_, ?_, ?_, ?_, ?_, ?_⟩
  case _ => rcases vars with ⟨rt, pt, sh⟩; cases rt <;> cases pt <;> cases sh <;> decide
  case _ => rcases vars with ⟨rt, pt, sh⟩; cases rt <;> cases pt <;> cases sh <;> decide
  case _ => rcases vars with ⟨rt, pt, sh⟩; cases rt <;> cases pt <;> cases sh <;> decide
  case _ => rcases vars with ⟨rt, pt, sh⟩; cases rt <;> cases pt <;> cases sh <;> decide
  case _ => rcases vars with ⟨rt, pt, sh⟩; cases rt <;> cases pt <;> cases sh <;> decide
  case _ => rcases vars with ⟨rt, pt, sh⟩; cases rt <;> cases pt <;> cases sh <;> decide
  case _ => rcases vars with ⟨rt, pt, sh⟩; cases rt <;> cases pt <;> cases sh <;> decide
  case _ =>
    rw [drawFrame_success_trace]
    refine List.Sublist.trans ?_ (List.sublist_append_right _ _)
    have h1 : List.Sublist
        [Event.submit (st.currentFrame % N) (st.currentFrame % N)
          (st.currentFrame % N) (st.currentFrame % N)]
        [Event.submit (st.currentFrame % N) (st.currentFrame % N)
          (st.currentFrame % N) (st.currentFrame % N),
         Event.present (st.currentFrame % N) (st.currentFrame % N),
         Event.advanceFrame] :=
      (List.nil_sublist _).cons₂ _
    exact ((((((h1.append_left _).cons _).cons _).cons _).cons _).cons _)

/-- C1: in a normally completing frame with slot `f = current_frame mod N`,
the synchronization steps occur in the strict order wait-fence,
acquire-image (signalling slot `f`'s availability semaphore), reset-fence,
submit, present, advance, each exactly once; the submission is configured
to wait on the availability semaphore of slot `f` and to signal slot `f`'s
completion semaphore and fence, the presentation waits on the completion
semaphore, so GPU work for the frame never begins before its image is
available; no error escapes and `current_frame` advances by one. -/
theorem C1_drawFrame_sync_order (N : Nat) (st : FrameState) (imageIndex : Nat)
    (rebuildOk : Bool) :
    List.Sublist
        [Event.waitFence (st.currentFrame % N),
         Event.acquireImage (st.currentFrame % N) (st.currentFrame % N),
         Event.resetFence (st.currentFrame % N),
         Event.submit (st.currentFrame % N) (st.currentFrame % N)
           (st.currentFrame % N) (st.currentFrame % N),
         Event.present (st.currentFrame % N) (st.currentFrame % N),
         Event.advanceFrame]
        ((drawFrame N st (AcquireResult.success imageIndex) rebuildOk).2.1)
      ∧ (drawFrame N st (AcquireResult.success imageIndex) rebuildOk).2.1.count
          (Event.waitFence (st.currentFrame % N)) = 1
      ∧ (drawFrame N st (AcquireResult.success imageIndex) rebuildOk).2.1.count
          (Event.acquireImage (st.currentFrame % N) (st.currentFrame % N)) = 1
      ∧ (drawFrame N st (AcquireResult.success imageIndex) rebuildOk).2.1.count
          (Event.resetFence (st.currentFrame % N)) = 1
      ∧ (drawFrame N st (AcquireResult.success imageIndex) rebuildOk).2.1.count
          (Event.submit (st.currentFrame % N) (st.currentFrame % N)
            (st.currentFrame % N) (st.currentFrame % N)) = 1
      ∧ (drawFrame N st (AcquireResult.success imageIndex) rebuildOk).2.1.count
          (Event.present (st.currentFrame % N) (st.currentFrame % N)) = 1
      ∧ (drawFrame N st (AcquireResult.success imageIndex) rebuildOk).2.1.count
          Event.advanceFrame = 1
      ∧ (drawFrame N st (AcquireResult.success imageIndex) rebuildOk).1.currentFrame
          = st.currentFrame + 1
      ∧ (drawFrame N st (AcquireResult.success imageIndex) rebuildOk).2.2 = none := by
  refine ⟨?_, ?_, ?_, ?_, ?_, ?_, ?_, rfl, rfl⟩
  case _ =>
    rw [drawFrame_success_trace]
    refine List.Sublist.trans ?_ (List.sublist_append_right _ _)
    exact (((((List.sublist_append_right _ _).cons _).cons _).cons₂ _).cons₂ _).cons₂ _
  all_goals
    rw [drawFrame_success_trace]
    simp [List.count_append, List.count_cons, shaderHotReload_count,
      recordPass_map_count]

/-- C5: the shader hot-reload flag is checked exactly once per frame and
the check is the very first action of the frame; with the flag set, the
pipeline rebuild is recorded immediately after the check and before
everything else of the frame (in particular before any command
recording), and no second rebuild occurs in that frame; a successful
rebuild clears the flag, a failed rebuild leaves it set; and with no
pending trigger the flag stays clear and no rebuild is recorded, so one
trigger is cleared exactly once. -/
theorem C5_hot_reload_checked_once_cleared_once_per_trigger (N c : Nat)
    (vars : GUIRendererSharedVars) (acq : AcquireResult) (rebuildOk : Bool) :
    ((drawFrame N ⟨c, vars⟩ acq rebuildOk).2.1.count
        Event.checkHotReloadFlag = 1
      ∧ (drawFrame N ⟨c, vars⟩ acq rebuildOk).2.1.head?
          = some Event.checkHotReloadFlag)
      ∧ (∃ rest,
          (drawFrame N ⟨c, withTrigger vars true⟩ acq rebuildOk).2.1
            = Event.checkHotReloadFlag :: Event.rebuildPipelines rebuildOk :: rest
          ∧ ∀ b, Event.rebuildPipelines b ∉ rest)
      ∧ (drawFrame N ⟨c, withTrigger vars true⟩
          acq true).1.sharedVars.shader_hot_reload_triggered = false
      ∧ (drawFrame N ⟨c, withTrigger vars true⟩
          acq false).1.sharedVars.shader_hot_reload_triggered = true
      ∧ (drawFrame N ⟨c, withTrigger vars false⟩
          acq rebuildOk).1.sharedVars.shader_hot_reload_triggered = false
      ∧ (∀ b, Event.rebuildPipelines b
          ∉ (drawFrame N ⟨c, withTrigger vars false⟩ acq rebuildOk).2.1) := by
  rcases vars with ⟨rt, pt, sh⟩
  refine ⟨⟨?_, ?_⟩, ?_, ?_, ?_, ?_, ?_⟩
  case _ =>
    cases acq <;> cases rebuildOk <;> cases sh <;> cases rt <;> cases pt <;>
      simp [drawFrame, shaderHotReload, recordedPasses, List.count_cons,
        List.count_append, recordPass_map_count]
  case _ =>
    cases acq <;> cases rebuildOk <;> cases sh <;>
      simp [drawFrame, shaderHotReload]
  case _ =>
    cases acq <;> cases rebuildOk <;> cases rt <;> cases pt <;>
      exact ⟨_, rfl, by simp [withTrigger, recordedPasses]⟩
  case _ => cases acq <;> simp [drawFrame, shaderHotReload, withTrigger]
  case _ => cases acq <;> simp [drawFrame, shaderHotReload, withTrigger]
  case _ => cases acq <;> simp [drawFrame, shaderHotReload, withTrigger]
  case _ =>
    cases acq <;> cases rebuildOk <;> cases rt <;> cases pt <;>
      simp [drawFrame, shaderHotReload, withTrigger, recordedPasses]

/-- A normally completing frame waits exactly once, on the fence of slot
`current_frame mod N`. -/
theorem drawFrame_waitFence_count (N : Nat) (st : FrameState) (imageIndex : Nat)
    (rebuildOk : Bool) (s : Nat) :
    ((drawFrame N st (AcquireResult.success imageIndex) rebuildOk).2.1).count
        (Event.waitFence s)
      = if st.currentFrame % N = s then 1 else 0 := by
  rw [drawFrame_success_trace, List.count_append,
    shaderHotReload_count _ _ _ (by simp) (by simp)]
  by_cases h : st.currentFrame % N = s <;>
    simp [h, List.count_cons, List.count_append, recordPass_map_count]

/-- Wait counts of a run of normally completing frames, summed per slot by
`expectedWaits`. -/
theorem runFrames_waitFence_count (n : Nat) (N : Nat) (st : FrameState) (s : Nat) :
    ((runFrames N st (List.replicate n (AcquireResult.success 0, true))).2).count
        (Event.waitFence s)
      = expectedWaits st.currentFrame N s n := by
  induction n generalizing st with
  | zero => rfl
  | succ n ih =>
      rw [List.replicate_succ]
      simp only [runFrames, List.count_append]
      rw [drawFrame_waitFence_count, ih, drawFrame_success_state]
      rfl

/-- A run of `n` normally completing frames advances `current_frame` by
`n`. -/
theorem runFrames_currentFrame (n : Nat) (N : Nat) (st : FrameState) :
    ((runFrames N st (List.replicate n (AcquireResult.success 0, true))).1).currentFrame
      = st.currentFrame + n := by
  induction n generalizing st with
  | zero => rfl
  | succ n ih =>
      rw [List.replicate_succ]
      simp only [runFrames]
      rw [ih, drawFrame_success_state]
      change st.currentFrame + 1 + n = st.currentFrame + (n + 1)
      omega

/-- `expectedWaits` depends on the start counter only through its residue
mod `N`. -/
theorem expectedWaits_congr (n : Nat) (c₁ c₂ N s : Nat) (h : c₁ % N = c₂ % N) :
    expectedWaits c₁ N s n = expectedWaits c₂ N s n := by
  induction n generalizing c₁ c₂ with
  | zero => rfl
  | succ n ih =>
      simp only [expectedWaits, h]
      rw [ih (c₁ + 1) (c₂ + 1) (by rw [Nat.add_mod, h, ← Nat.add_mod])]

/-- C8: with `N = 2` frames in flight, after any 10 consecutive
`drawFrame()` calls that all complete normally — from any starting state,
any flag assignment (in particular ray tracing enabled) — each of the two
frame slots' fences has been waited on exactly 5 times, and
`current_frame` has advanced by exactly 10, one per completed frame; the
slot waited on each frame is `current_frame mod 2` by construction of
`drawFrame`. -/
theorem C8_ten_frames_wait_each_slot_five_times (st : FrameState) :
    ((runFrames 2 st (List.replicate 10 (AcquireResult.success 0, true))).2).count
        (Event.waitFence 0) = 5
      ∧ ((runFrames 2 st (List.replicate 10 (AcquireResult.success 0, true))).2).count
          (Event.waitFence 1) = 5
      ∧ ((runFrames 2 st (List.replicate 10 (AcquireResult.success 0, true))).1).currentFrame
          = st.currentFrame + 10 := by
  refine ⟨?_, ?_, runFrames_currentFrame 10 2 st⟩ <;>
  · rw [runFrames_waitFence_count,
      expectedWaits_congr 10 st.currentFrame (st.currentFrame % 2) 2 _ (by omega)]
    rcases Nat.mod_two_eq_zero_or_one st.currentFrame with h | h <;> rw [h] <;> decide

end KataglyphisRenderer
